import Mathlib

/-!
Verification of the boundarylayers repository (webbink.py and
compton_cooling.py) against its specification.

The source is Python 2 acting on IEEE-754 doubles; the embedding works over
the real numbers, with the observable behaviour of each function captured by
an `Outcome` together with the list of diagnostic lines it prints:

* a function that returns a float is `Outcome.val x`;
* a function that prints a diagnostic and falls through (returning `None`)
  is `Outcome.retNone`;
* an uncaught runtime exception is `Outcome.exn`.  Two sources of exceptions
  appear in this code: arithmetic on the `None` produced by a failed `radius`
  call raises `TypeError`, and a float division whose denominator is zero
  raises `ZeroDivisionError`.  Both are modelled by a zero test on the
  denominator, respectively by propagating `exn` when a needed radius is not
  a value.

Python `**` on floats is modelled by `Real.rpow` (written `x ^ e`); the
claims only exercise it at nonnegative bases, where the two agree.  The
string method `lower` only ever sees ASCII strings here and is modelled by a
character map, so that concrete instances reduce by `decide`.
-/

namespace BoundaryLayers

/-- Observable result of one Python call: a returned float, a `None` return
(after a printed diagnostic), or an uncaught exception. -/
inductive Outcome where
  | val : ℝ → Outcome
  | retNone : Outcome
  | exn : Outcome

/-- ASCII lower-casing, modelling the Python string method `lower` on the
ASCII-only strings this program compares. -/
def lower (s : String) : String := ⟨s.data.map Char.toLower⟩

/-- Diagnostic printed by `radius` (webbink.py lines 23 and 26). -/
def radiusMsg : String := "White dwarf mass must be positive and less than 1.44 Msol"

/-- Diagnostic printed by `tshock` for a bad unit (compton_cooling.py line 28). -/
def unitsMsg : String := "Units must be Kelvin (K) or keV (keV).  Please check your units."

/-- Diagnostic printed by `urad` for a bad covering fraction (line 36). -/
def fradMsg : String := "frad must be between 0 and 1. Please check and try again."

/-- Diagnostic printed by `nebl` for a bad accretion fraction (line 56). -/
def faccMsg : String := "facc should be between >0 and <= 1. Please check and try again."

/-- Diagnostic printed by `facc` for a bad mode (line 81). -/
def modeMsg : String := "mode must be thick or thin"

noncomputable section

/-- Solar mass in g (compton_cooling.py line 5). -/
def MSOL : ℝ := 2e33

/-- Mean molecular weight (line 6). -/
def MU : ℝ := 0.63

/-- Hydrogen mass in g (line 7). -/
def MH : ℝ := 1.67e-24

/-- Gravitational constant, cgs (line 8). -/
def G : ℝ := 6.67e-8

/-- Boltzmann constant, erg/K (line 9). -/
def K : ℝ := 1.38e-16

/-- Kelvin to keV conversion (line 10). -/
def KTOKEV : ℝ := 8.6173e-8

/-- Speed of light, cm/s (line 11). -/
def C : ℝ := 2e10

/-- Solar masses per year to g/s conversion (line 12). -/
def MDOTGS : ℝ := 6.34e+25

/-- The radius formula of webbink.py on its valid branch:
with x = 1.44/mass - 1 and temp1 = 0.3767 - 0.00605 * log10 x, the radius is
7.7e8 * x ** temp1 (webbink.py lines 29-31). -/
def radiusVal (mass : ℝ) : ℝ :=
  7.7e8 * (1.44 / mass - 1.0) ^ (0.3767 - 0.00605 * Real.logb 10 (1.44 / mass - 1.0))

/-- webbink.py `radius`: white dwarf radius in cm from mass in solar masses.
Masses outside (0, 1.44) print a diagnostic and return `None`. -/
def radius (mass : ℝ) : Outcome × List String :=
  if mass ≤ 0 then (Outcome.retNone, [radiusMsg])
  else if 1.44 ≤ mass then (Outcome.retNone, [radiusMsg])
  else (Outcome.val (radiusVal mass), [])

/-- compton_cooling.py `tshock`: shock temperature for white dwarf mass `mwd`
in the requested unit.  The temperature is computed (using the radius) before
the unit string is examined, so an invalid mass raises `TypeError` whatever
the unit is. -/
def tshock (mwd : ℝ) (unit : String) : Outcome × List String :=
  match radius mwd with
  | (Outcome.val rwd, msgs) =>
    if 16.0 * K * rwd = 0 then (Outcome.exn, msgs)
    else
      if lower unit = "k" then
        (Outcome.val (3.0 * MU * MH * G * (mwd * MSOL) / (16.0 * K * rwd)), msgs)
      else if lower unit = "kev" then
        (Outcome.val (3.0 * MU * MH * G * (mwd * MSOL) / (16.0 * K * rwd) * KTOKEV), msgs)
      else (Outcome.retNone, msgs ++ [unitsMsg])
  | (_, msgs) => (Outcome.exn, msgs)

/-- compton_cooling.py `urad`: radiation energy density for luminosity `lrad`
over the fraction `frad` of the surface of a white dwarf of mass `mwd`.
The fraction is validated before the radius is computed. -/
def urad (lrad mwd frad : ℝ) : Outcome × List String :=
  if frad ≤ 0 ∨ 1 < frad then (Outcome.retNone, [fradMsg])
  else
    match radius mwd with
    | (Outcome.val rwd, msgs) =>
      if 4.0 * Real.pi * rwd ^ (2.0 : ℝ) * frad * C = 0 then (Outcome.exn, msgs)
      else (Outcome.val (lrad / (4.0 * Real.pi * rwd ^ (2.0 : ℝ) * frad * C)), msgs)
    | (_, msgs) => (Outcome.exn, msgs)

/-- compton_cooling.py `nebl`: boundary-layer number density for accretion
rate `mdot` (solar masses per year), mass `mwd`, accreting surface fraction
`facc` and accretion velocity `vacc` (km/s).  The fraction is validated
before the radius is computed; the rate is scaled by MDOTGS and the velocity
by 1e5 before the density formula is applied. -/
def nebl (mdot mwd facc vacc : ℝ) : Outcome × List String :=
  if facc ≤ 0 ∨ 1 < facc then (Outcome.retNone, [faccMsg])
  else
    match radius mwd with
    | (Outcome.val rwd, msgs) =>
      if 4 * Real.pi * MU * MH * rwd ^ (2 : ℕ) * facc * (vacc * 1e5) = 0 then
        (Outcome.exn, msgs)
      else
        (Outcome.val (mdot * MDOTGS /
          (4 * Real.pi * MU * MH * rwd ^ (2 : ℕ) * facc * (vacc * 1e5))), msgs)
    | (_, msgs) => (Outcome.exn, msgs)

/-- compton_cooling.py `facc`: accretion fraction z/(4 r) for a thick or thin
boundary layer.  The mode string is examined first; the mass is only used
inside the selected branch. -/
def facc (mwd mdot : ℝ) (mode : String) : Outcome × List String :=
  if lower mode = "thick" then
    match radius mwd with
    | (Outcome.val rwd, msgs) =>
      if rwd = 0 then (Outcome.exn, msgs)
      else
        (Outcome.val (Real.sqrt rwd ^ (2.0 : ℝ) *
          (6.96e-4 * (mwd / 0.7) ^ (-0.85 : ℝ) * (mdot * MDOTGS / 1e18) ^ (-0.22 : ℝ) +
            7.29e-4 * (mwd / 0.7) ^ (0.8 : ℝ) * (mdot * MDOTGS / 1e18)) / 4 / rwd), msgs)
    | (_, msgs) => (Outcome.exn, msgs)
  else if lower mode = "thin" then
    match radius mwd with
    | (Outcome.val rwd, msgs) =>
      if rwd = 0 then (Outcome.exn, msgs)
      else
        (Outcome.val (3.85e8 * (mwd / 0.7) ^ (0.1 : ℝ) *
          (mdot * MDOTGS / 1e15) ^ (-0.5 : ℝ) / 4 / rwd), msgs)
    | (_, msgs) => (Outcome.exn, msgs)
  else (Outcome.retNone, [modeMsg])

/-- compton_cooling.py `coolratio`: the dimensionless cooling ratio
7.5e-5 * n / (u * sqrt T).  A negative temperature would raise (fractional
power of a negative float in Python 2), as would a zero denominator. -/
def coolratio (n u t : ℝ) : Outcome × List String :=
  if t < 0 then (Outcome.exn, [])
  else if u * t ^ (0.5 : ℝ) = 0 then (Outcome.exn, [])
  else (Outcome.val (7.5e-5 * n / (u * t ^ (0.5 : ℝ))), [])

/-- Feed the value produced by one call into the next computation; any
non-value outcome poisons the rest of the computation (in Python, arithmetic
on `None` raises `TypeError`). -/
def bindVal (r : Outcome × List String) (f : ℝ → Outcome) : Outcome :=
  match r.1 with
  | Outcome.val x => f x
  | _ => Outcome.exn

/-- The example driver of compton_cooling.py (lines 87-101): mwd = 1.3,
mdot = 3e-9, mode thin, vacc = 2000, frad = 1.0.  The boundary-layer density
is additionally multiplied by exp(-5) (line 94); the shock temperature uses
the default unit K; the first assignment to lrad (line 96) is dead code,
immediately overwritten by the blackbody form of line 97, which is the one
used. -/
def driverRatio : Outcome :=
  bindVal (facc 1.3 3e-9 "thin") fun f =>
  bindVal (nebl 3e-9 1.3 f 2000) fun n0 =>
  bindVal (tshock 1.3 "K") fun ts =>
  bindVal (radius 1.3) fun rwd =>
  bindVal (urad (4 * Real.pi * rwd ^ (2 : ℕ) * 5.67e-5 * 120000 ^ (4.0 : ℝ)) 1.3 1.0) fun ur =>
  (coolratio (n0 * Real.exp (-5)) ur ts).1

/-- Modelled from the specification wording of the end-to-end scenario: the
pipeline radius, accretionFraction, boundaryLayerDensity, shockTemperature,
radiationEnergyDensity, coolingRatio at mass 1.3, mdot 3e-9, mode thin,
vacc 2000, frad 1.0 and L = 4 pi radius(1.3)^2 * 5.67e-5 * 120000^4, with no
extra factor anywhere. -/
def specChainRatio : Outcome :=
  bindVal (radius 1.3) fun rwd =>
  bindVal (facc 1.3 3e-9 "thin") fun f =>
  bindVal (nebl 3e-9 1.3 f 2000) fun n =>
  bindVal (tshock 1.3 "K") fun ts =>
  bindVal (urad (4 * Real.pi * rwd ^ (2 : ℕ) * 5.67e-5 * 120000 ^ (4.0 : ℝ)) 1.3 1.0) fun ur =>
  (coolratio n ur ts).1

end

/-! ## Basic facts about `radius` -/

/-- On the valid domain the guards fall through to the formula. -/
theorem radius_eq_val {m : ℝ} (h0 : 0 < m) (h1 : m < 1.44) :
    radius m = (Outcome.val (radiusVal m), []) := by
  rw [radius, if_neg (by linarith), if_neg (by linarith)]

/-- Outside the valid domain, `radius` prints the diagnostic and returns
`None`. -/
theorem radius_eq_none {m : ℝ} (h : m ≤ 0 ∨ 1.44 ≤ m) :
    radius m = (Outcome.retNone, [radiusMsg]) := by
  rcases h with h | h
  · rw [radius, if_pos h]
  · rw [radius]
    by_cases h0 : m ≤ 0
    · rw [if_pos h0]
    · rw [if_neg h0, if_pos h]

/-- The base of the Webbink power is positive on the valid domain. -/
theorem webbink_base_pos {m : ℝ} (h0 : 0 < m) (h1 : m < 1.44) :
    0 < 1.44 / m - 1.0 := by
  have : 1 < 1.44 / m := (one_lt_div h0).mpr h1
  linarith

/-- The radius value is positive on the valid domain. -/
theorem radiusVal_pos {m : ℝ} (h0 : 0 < m) (h1 : m < 1.44) :
    0 < radiusVal m := by
  have hx := webbink_base_pos h0 h1
  have := Real.rpow_pos_of_pos hx (0.3767 - 0.00605 * Real.logb 10 (1.44 / m - 1.0))
  rw [radiusVal]
  positivity

/-! ## Evaluation lemmas on valid inputs -/

/-- `tshock` on a valid mass with unit K. -/
theorem tshock_K {m : ℝ} (h0 : 0 < m) (h1 : m < 1.44) {unit : String}
    (hu : lower unit = "k") :
    tshock m unit =
      (Outcome.val (3.0 * MU * MH * G * (m * MSOL) / (16.0 * K * radiusVal m)), []) := by
  have hr := radiusVal_pos h0 h1
  have hden : 16.0 * K * radiusVal m ≠ 0 := by
    have : (0:ℝ) < 16.0 * K * radiusVal m := by rw [K]; positivity
    exact ne_of_gt this
  simp only [tshock, radius_eq_val h0 h1]
  rw [if_neg hden, if_pos hu]

/-- `tshock` on a valid mass with unit keV. -/
theorem tshock_keV {m : ℝ} (h0 : 0 < m) (h1 : m < 1.44) {unit : String}
    (hu : lower unit = "kev") :
    tshock m unit =
      (Outcome.val (3.0 * MU * MH * G * (m * MSOL) / (16.0 * K * radiusVal m) * KTOKEV),
        []) := by
  have hr := radiusVal_pos h0 h1
  have hden : 16.0 * K * radiusVal m ≠ 0 := by
    have : (0:ℝ) < 16.0 * K * radiusVal m := by rw [K]; positivity
    exact ne_of_gt this
  have hk : lower unit ≠ "k" := by rw [hu]; decide
  simp only [tshock, radius_eq_val h0 h1]
  rw [if_neg hden, if_neg hk, if_pos hu]

/-- `tshock` on a valid mass with an unrecognised unit string. -/
theorem tshock_badUnit {m : ℝ} (h0 : 0 < m) (h1 : m < 1.44) {unit : String}
    (hk : lower unit ≠ "k") (hkev : lower unit ≠ "kev") :
    tshock m unit = (Outcome.retNone, [unitsMsg]) := by
  have hr := radiusVal_pos h0 h1
  have hden : 16.0 * K * radiusVal m ≠ 0 := by
    have : (0:ℝ) < 16.0 * K * radiusVal m := by rw [K]; positivity
    exact ne_of_gt this
  simp only [tshock, radius_eq_val h0 h1]
  rw [if_neg hden, if_neg hk, if_neg hkev]
  simp

/-- `urad` rejects covering fractions outside (0, 1]. -/
theorem urad_reject {lrad m f : ℝ} (h : f ≤ 0 ∨ 1 < f) :
    urad lrad m f = (Outcome.retNone, [fradMsg]) := by
  rw [urad, if_pos h]

/-- `urad` on valid inputs. -/
theorem urad_eq {lrad m f : ℝ} (h0 : 0 < m) (h1 : m < 1.44) (hf0 : 0 < f) (hf1 : f ≤ 1) :
    urad lrad m f =
      (Outcome.val (lrad / (4.0 * Real.pi * radiusVal m ^ (2.0 : ℝ) * f * C)), []) := by
  have hr := radiusVal_pos h0 h1
  have hguard : ¬(f ≤ 0 ∨ 1 < f) := by push_neg; exact ⟨hf0, hf1⟩
  have hden : 4.0 * Real.pi * radiusVal m ^ (2.0 : ℝ) * f * C ≠ 0 := by
    have h2 : (0:ℝ) < radiusVal m ^ (2.0 : ℝ) := Real.rpow_pos_of_pos hr _
    have : (0:ℝ) < 4.0 * Real.pi * radiusVal m ^ (2.0 : ℝ) * f * C := by
      rw [C]; positivity
    exact ne_of_gt this
  simp only [urad, if_neg hguard, radius_eq_val h0 h1]
  rw [if_neg hden]

/-- `nebl` rejects accretion fractions outside (0, 1]. -/
theorem nebl_reject {mdot m f v : ℝ} (h : f ≤ 0 ∨ 1 < f) :
    nebl mdot m f v = (Outcome.retNone, [faccMsg]) := by
  rw [nebl, if_pos h]

/-- `nebl` on valid inputs (nonzero velocity). -/
theorem nebl_eq {mdot m f v : ℝ} (h0 : 0 < m) (h1 : m < 1.44)
    (hf0 : 0 < f) (hf1 : f ≤ 1) (hv : v ≠ 0) :
    nebl mdot m f v =
      (Outcome.val (mdot * MDOTGS /
        (4 * Real.pi * MU * MH * radiusVal m ^ (2 : ℕ) * f * (v * 1e5))), []) := by
  have hr := radiusVal_pos h0 h1
  have hguard : ¬(f ≤ 0 ∨ 1 < f) := by push_neg; exact ⟨hf0, hf1⟩
  have hden : 4 * Real.pi * MU * MH * radiusVal m ^ (2 : ℕ) * f * (v * 1e5) ≠ 0 := by
    apply mul_ne_zero
    · have : (0:ℝ) < 4 * Real.pi * MU * MH * radiusVal m ^ (2 : ℕ) * f := by
        rw [MU, MH]; positivity
      exact ne_of_gt this
    · exact mul_ne_zero hv (by norm_num)
  simp only [nebl, if_neg hguard, radius_eq_val h0 h1]
  rw [if_neg hden]

/-- `nebl` raises `ZeroDivisionError` when the accretion velocity is zero
(valid mass and fraction). -/
theorem nebl_zeroVel {mdot m f : ℝ} (h0 : 0 < m) (h1 : m < 1.44)
    (hf0 : 0 < f) (hf1 : f ≤ 1) :
    nebl mdot m f 0 = (Outcome.exn, []) := by
  have hguard : ¬(f ≤ 0 ∨ 1 < f) := by push_neg; exact ⟨hf0, hf1⟩
  have hden : 4 * Real.pi * MU * MH * radiusVal m ^ (2 : ℕ) * f * ((0:ℝ) * 1e5) = 0 := by
    rw [zero_mul, mul_zero]
  simp only [nebl, if_neg hguard, radius_eq_val h0 h1]
  rw [if_pos hden]

/-- `facc` in thin mode on a valid mass. -/
theorem facc_thin {m mdot : ℝ} (h0 : 0 < m) (h1 : m < 1.44) {mode : String}
    (hm : lower mode = "thin") :
    facc m mdot mode =
      (Outcome.val (3.85e8 * (m / 0.7) ^ (0.1 : ℝ) *
        (mdot * MDOTGS / 1e15) ^ (-0.5 : ℝ) / 4 / radiusVal m), []) := by
  have hr := radiusVal_pos h0 h1
  have hthick : lower mode ≠ "thick" := by rw [hm]; decide
  simp only [facc, if_neg hthick, if_pos hm, radius_eq_val h0 h1]
  rw [if_neg (ne_of_gt hr)]

/-- `facc` in thick mode on a valid mass. -/
theorem facc_thick {m mdot : ℝ} (h0 : 0 < m) (h1 : m < 1.44) {mode : String}
    (hm : lower mode = "thick") :
    facc m mdot mode =
      (Outcome.val (Real.sqrt (radiusVal m) ^ (2.0 : ℝ) *
        (6.96e-4 * (m / 0.7) ^ (-0.85 : ℝ) * (mdot * MDOTGS / 1e18) ^ (-0.22 : ℝ) +
          7.29e-4 * (m / 0.7) ^ (0.8 : ℝ) * (mdot * MDOTGS / 1e18)) / 4 / radiusVal m),
        []) := by
  have hr := radiusVal_pos h0 h1
  simp only [facc, if_pos hm, radius_eq_val h0 h1]
  rw [if_neg (ne_of_gt hr)]

/-- `facc` with an unrecognised mode string. -/
theorem facc_badMode {m mdot : ℝ} {mode : String}
    (ht : lower mode ≠ "thick") (hn : lower mode ≠ "thin") :
    facc m mdot mode = (Outcome.retNone, [modeMsg]) := by
  rw [facc, if_neg ht, if_neg hn]

/-- `coolratio` on a nonnegative temperature and nonzero denominator. -/
theorem coolratio_eq {n u t : ℝ} (ht : 0 ≤ t) (hden : u * t ^ (0.5 : ℝ) ≠ 0) :
    coolratio n u t = (Outcome.val (7.5e-5 * n / (u * t ^ (0.5 : ℝ))), []) := by
  rw [coolratio, if_neg (not_lt.mpr ht), if_neg hden]

/-! ## Numeric bounds at the example mass 1.3 -/

/-- The Webbink base at mass 1.3 in lowest terms. -/
theorem base13_eq : (1.44:ℝ) / 1.3 - 1.0 = 7 / 65 := by norm_num

/-- `radiusVal 1.3` written with the normalised base. -/
theorem r13_eq :
    radiusVal 1.3 =
      7.7e8 * (7/65 : ℝ) ^ (0.3767 - 0.00605 * Real.logb 10 (7/65 : ℝ)) := by
  rw [radiusVal, base13_eq]

/-- log10 of one hundredth. -/
theorem logb_hundredth : Real.logb 10 (1/100 : ℝ) = -2 := by
  have h10 : (0:ℝ) < Real.log 10 := Real.log_pos (by norm_num)
  rw [show (1/100:ℝ) = ((10:ℝ) ^ (2:ℕ))⁻¹ by norm_num, Real.logb, Real.log_inv,
    Real.log_pow]
  field_simp

/-- The base-10 log of the Webbink base at mass 1.3 is negative. -/
theorem logb13_neg : Real.logb 10 (7/65 : ℝ) < 0 :=
  Real.logb_neg (by norm_num) (by norm_num) (by norm_num)

/-- The base-10 log of the Webbink base at mass 1.3 exceeds -2. -/
theorem logb13_gt : (-2 : ℝ) < Real.logb 10 (7/65 : ℝ) := by
  have h := @Real.logb_lt_logb 10 (1/100) (7/65) (by norm_num) (by norm_num)
    (by norm_num)
  rwa [logb_hundredth] at h

/-- Lower bound for the radius at mass 1.3. -/
theorem r13_lb : 7.7e8 * (7/65 : ℝ) ≤ radiusVal 1.3 := by
  rw [r13_eq]
  have ht1 : 0.3767 - 0.00605 * Real.logb 10 (7/65 : ℝ) ≤ 1 := by
    nlinarith [logb13_gt]
  have h := Real.rpow_le_rpow_of_exponent_ge (show (0:ℝ) < 7/65 by norm_num)
    (show (7/65:ℝ) ≤ 1 by norm_num) ht1
  rw [Real.rpow_one] at h
  nlinarith [h]

/-- Upper bound for the radius at mass 1.3. -/
theorem r13_ub : radiusVal 1.3 ≤ 7.7e8 := by
  rw [r13_eq]
  have ht0 : 0 ≤ 0.3767 - 0.00605 * Real.logb 10 (7/65 : ℝ) := by
    nlinarith [logb13_neg]
  have h := Real.rpow_le_one (show (0:ℝ) ≤ 7/65 by norm_num)
    (show (7/65:ℝ) ≤ 1 by norm_num) ht0
  nlinarith [h]

noncomputable section

/-- The thin-mode accretion fraction the example driver obtains at mass 1.3
and accretion rate 3e-9, exactly as `facc` produces it. -/
def chainFacc : ℝ :=
  3.85e8 * (1.3 / 0.7 : ℝ) ^ (0.1 : ℝ) * (3e-9 * MDOTGS / 1e15) ^ (-0.5 : ℝ) / 4 /
    radiusVal 1.3

/-- The boundary-layer density of the chained pipeline (no exp(-5) factor). -/
def chainNebl : ℝ :=
  3e-9 * MDOTGS /
    (4 * Real.pi * MU * MH * radiusVal 1.3 ^ (2 : ℕ) * chainFacc * (2000 * 1e5))

/-- The shock temperature at mass 1.3 in Kelvin. -/
def chainTshock : ℝ := 3.0 * MU * MH * G * (1.3 * MSOL) / (16.0 * K * radiusVal 1.3)

/-- The blackbody luminosity of the example (line 97). -/
def chainLrad : ℝ :=
  4 * Real.pi * radiusVal 1.3 ^ (2 : ℕ) * 5.67e-5 * 120000 ^ (4.0 : ℝ)

/-- The radiation energy density of the example. -/
def chainUrad : ℝ :=
  chainLrad / (4.0 * Real.pi * radiusVal 1.3 ^ (2.0 : ℝ) * 1.0 * C)

/-- The cooling ratio of the chained pipeline (no exp(-5) factor). -/
def chainVal : ℝ := 7.5e-5 * chainNebl / (chainUrad * chainTshock ^ (0.5 : ℝ))

end

/-- Mass 1.3 is in the valid domain. -/
theorem mass13_valid : (0:ℝ) < 1.3 ∧ (1.3:ℝ) < 1.44 := by norm_num

/-- The example accretion fraction is positive. -/
theorem chainFacc_pos : 0 < chainFacc := by
  have hr := radiusVal_pos mass13_valid.1 mass13_valid.2
  have hM : (0:ℝ) < MDOTGS := by rw [MDOTGS]; norm_num
  rw [chainFacc]
  have hA : (0:ℝ) < (1.3/0.7:ℝ) ^ (0.1:ℝ) := Real.rpow_pos_of_pos (by norm_num) _
  have hB : (0:ℝ) < (3e-9 * MDOTGS / 1e15 : ℝ) ^ (-0.5:ℝ) :=
    Real.rpow_pos_of_pos (by positivity) _
  positivity

/-- The example accretion fraction does not exceed 1 (the scale height is far
below four radii). -/
theorem chainFacc_le_one : chainFacc ≤ 1 := by
  have hr := radiusVal_pos mass13_valid.1 mass13_valid.2
  have hA1 : (1.3/0.7:ℝ) ^ (0.1:ℝ) ≤ 13/7 := by
    have h := Real.rpow_le_rpow_of_exponent_le
      (show (1:ℝ) ≤ 1.3/0.7 by norm_num) (show (0.1:ℝ) ≤ 1 by norm_num)
    rw [Real.rpow_one] at h
    calc (1.3/0.7:ℝ) ^ (0.1:ℝ) ≤ 1.3/0.7 := h
      _ = 13/7 := by norm_num
  have hA0 : (0:ℝ) < (1.3/0.7:ℝ) ^ (0.1:ℝ) := Real.rpow_pos_of_pos (by norm_num) _
  have hbase : (3e-9 * MDOTGS / 1e15 : ℝ) = 951/5 := by rw [MDOTGS]; norm_num
  have hB1 : (3e-9 * MDOTGS / 1e15 : ℝ) ^ (-0.5:ℝ) ≤ 1/13 := by
    rw [hbase, show (-0.5:ℝ) = -(0.5) by norm_num,
      Real.rpow_neg (by norm_num : (0:ℝ) ≤ 951/5),
      show ((951/5:ℝ) ^ (0.5:ℝ)) = Real.sqrt (951/5) by
        rw [show (0.5:ℝ) = 1/2 by norm_num, ← Real.sqrt_eq_rpow],
      ← one_div]
    apply one_div_le_one_div_of_le (by norm_num)
    rw [show (13:ℝ) = Real.sqrt 169 by
      rw [show (169:ℝ) = 13^2 by norm_num]; exact (Real.sqrt_sq (by norm_num)).symm]
    exact Real.sqrt_le_sqrt (by norm_num)
  have hB0 : (0:ℝ) < (3e-9 * MDOTGS / 1e15 : ℝ) ^ (-0.5:ℝ) := by
    rw [hbase]; exact Real.rpow_pos_of_pos (by norm_num) _
  have hAB : (1.3/0.7:ℝ) ^ (0.1:ℝ) * ((3e-9 * MDOTGS / 1e15 : ℝ) ^ (-0.5:ℝ)) ≤
      (13/7) * (1/13) :=
    mul_le_mul hA1 hB1 (le_of_lt hB0) (by norm_num)
  rw [chainFacc, div_le_one hr]
  nlinarith [r13_lb, hAB]

/-- The shock temperature at mass 1.3 is positive. -/
theorem chainTshock_pos : 0 < chainTshock := by
  have hr := radiusVal_pos mass13_valid.1 mass13_valid.2
  rw [chainTshock, MU, MH, G, MSOL, K]
  positivity

/-- The example luminosity is positive. -/
theorem chainLrad_pos : 0 < chainLrad := by
  have hr := radiusVal_pos mass13_valid.1 mass13_valid.2
  have h4 : (0:ℝ) < (120000:ℝ) ^ (4.0:ℝ) := Real.rpow_pos_of_pos (by norm_num) _
  rw [chainLrad]
  positivity

/-- The example radiation energy density is positive. -/
theorem chainUrad_pos : 0 < chainUrad := by
  have hr := radiusVal_pos mass13_valid.1 mass13_valid.2
  have h2 : (0:ℝ) < radiusVal 1.3 ^ (2.0:ℝ) := Real.rpow_pos_of_pos hr _
  have hl := chainLrad_pos
  rw [chainUrad, C]
  positivity

/-- The chained boundary-layer density is positive. -/
theorem chainNebl_pos : 0 < chainNebl := by
  have hr := radiusVal_pos mass13_valid.1 mass13_valid.2
  have hf := chainFacc_pos
  have hM : (0:ℝ) < MDOTGS := by rw [MDOTGS]; norm_num
  rw [chainNebl, MU, MH]
  positivity

/-- The chained cooling ratio is positive. -/
theorem chainVal_pos : 0 < chainVal := by
  have hu := chainUrad_pos
  have hn := chainNebl_pos
  have ht : (0:ℝ) < chainTshock ^ (0.5:ℝ) := Real.rpow_pos_of_pos chainTshock_pos _
  rw [chainVal]
  positivity

/-! ## Evaluating the example driver and the specified pipeline -/

/-- Feeding a value into a continuation. -/
theorem bindVal_val (x : ℝ) (l : List String) (f : ℝ → Outcome) :
    bindVal (Outcome.val x, l) f = f x := rfl

/-- The radius call of the example. -/
theorem radius13 : radius 1.3 = (Outcome.val (radiusVal 1.3), []) :=
  radius_eq_val mass13_valid.1 mass13_valid.2

/-- The accretion-fraction call of the example. -/
theorem facc13 : facc 1.3 3e-9 "thin" = (Outcome.val chainFacc, []) := by
  rw [facc_thin mass13_valid.1 mass13_valid.2 (by decide)]
  rfl

/-- The boundary-layer density call of the example. -/
theorem nebl13 : nebl 3e-9 1.3 chainFacc 2000 = (Outcome.val chainNebl, []) := by
  rw [nebl_eq mass13_valid.1 mass13_valid.2 chainFacc_pos chainFacc_le_one
    (by norm_num : (2000:ℝ) ≠ 0)]
  rfl

/-- The shock-temperature call of the example. -/
theorem tshock13 : tshock 1.3 "K" = (Outcome.val chainTshock, []) := by
  rw [tshock_K mass13_valid.1 mass13_valid.2 (by decide)]
  rfl

/-- The radiation-energy-density call of the example. -/
theorem urad13 :
    urad (4 * Real.pi * radiusVal 1.3 ^ (2 : ℕ) * 5.67e-5 * 120000 ^ (4.0 : ℝ)) 1.3 1.0 =
      (Outcome.val chainUrad, []) := by
  rw [urad_eq mass13_valid.1 mass13_valid.2 (by norm_num) (by norm_num)]
  rfl

/-- The cooling-ratio call of the chained pipeline. -/
theorem cool13 :
    coolratio chainNebl chainUrad chainTshock = (Outcome.val chainVal, []) := by
  have hden : chainUrad * chainTshock ^ (0.5:ℝ) ≠ 0 :=
    ne_of_gt (mul_pos chainUrad_pos (Real.rpow_pos_of_pos chainTshock_pos _))
  rw [coolratio_eq (le_of_lt chainTshock_pos) hden]
  rfl

/-- The cooling-ratio call of the driver, whose density carries the extra
exp(-5) factor of line 94. -/
theorem cool13drv :
    coolratio (chainNebl * Real.exp (-5)) chainUrad chainTshock =
      (Outcome.val (Real.exp (-5) * chainVal), []) := by
  have hden : chainUrad * chainTshock ^ (0.5:ℝ) ≠ 0 :=
    ne_of_gt (mul_pos chainUrad_pos (Real.rpow_pos_of_pos chainTshock_pos _))
  rw [coolratio_eq (le_of_lt chainTshock_pos) hden]
  have harg : 7.5e-5 * (chainNebl * Real.exp (-5)) / (chainUrad * chainTshock ^ (0.5:ℝ)) =
      Real.exp (-5) * chainVal := by
    rw [chainVal]; ring
  rw [harg]

/-- The pipeline exactly as the spec lists it evaluates to `chainVal`. -/
theorem specChain_eval : specChainRatio = Outcome.val chainVal := by
  simp only [specChainRatio, radius13, facc13, nebl13, tshock13, urad13, cool13,
    bindVal_val]

/-- The repository driver evaluates to exp(-5) times `chainVal`. -/
theorem driver_eval : driverRatio = Outcome.val (Real.exp (-5) * chainVal) := by
  simp only [driverRatio, radius13, facc13, nebl13, tshock13, urad13, cool13drv,
    bindVal_val]

/-- C1 counterexample: the value the chained pipeline
radius, accretionFraction, boundaryLayerDensity, shockTemperature,
radiationEnergyDensity, coolingRatio produces at the example inputs is NOT
the value the example driver computes, to relative tolerance 1e-9: the
driver additionally multiplies the boundary-layer density by exp(-5)
(compton_cooling.py line 94), so the two ratios differ by the factor exp 5,
far beyond any IEEE-754 rounding. -/
theorem C1_counterexample :
    specChainRatio = Outcome.val chainVal ∧
    driverRatio = Outcome.val (Real.exp (-5) * chainVal) ∧
    1e-9 * |chainVal| < |Real.exp (-5) * chainVal - chainVal| := by
  refine ⟨specChain_eval, driver_eval, ?_⟩
  have hc := chainVal_pos
  have hE0 : 0 < Real.exp (-5) := Real.exp_pos _
  have h6 : (6:ℝ) ≤ Real.exp 5 := by
    have := Real.add_one_le_exp (5:ℝ)
    linarith
  have he : Real.exp (-5) ≤ 1/6 := by
    rw [Real.exp_neg]
    calc (Real.exp 5)⁻¹ ≤ (6:ℝ)⁻¹ := by
          apply inv_anti₀ (by norm_num) h6
      _ = 1/6 := by norm_num
  have hlt : Real.exp (-5) * chainVal - chainVal < 0 := by nlinarith
  rw [abs_of_pos hc, abs_of_neg hlt]
  have hfac : (5/6 : ℝ) ≤ 1 - Real.exp (-5) := by linarith
  have h1 : 1e-9 * chainVal < (5/6 : ℝ) * chainVal :=
    mul_lt_mul_of_pos_right (by norm_num) hc
  nlinarith

/-- C1, amended: chaining the six functions at the example inputs produces a
positive value `chainVal`, and the repository driver computes exactly
exp(-5) times that value, because line 94 multiplies the boundary-layer
density by exp(-5) before forming the cooling ratio.  With that factor
inserted the two computations agree exactly. -/
theorem C1_theorem :
    driverRatio = Outcome.val (Real.exp (-5) * chainVal) ∧
    specChainRatio = Outcome.val chainVal ∧ 0 < chainVal :=
  ⟨driver_eval, specChain_eval, chainVal_pos⟩

/-! ## C2: domain failure of shockTemperature -/

/-- For an invalid mass, the `None` returned by `radius` reaches the
temperature arithmetic of line 22 and a `TypeError` escapes, after the
radius diagnostic has been printed.  The unit string is never examined. -/
theorem tshock_invalid {m : ℝ} (unit : String) (h : m ≤ 0 ∨ 1.44 ≤ m) :
    tshock m unit = (Outcome.exn, [radiusMsg]) := by
  simp only [tshock, radius_eq_none h]

/-- C2 counterexample: at mass 0 with unit K the call does NOT complete
without an unhandled exception; arithmetic on the `None` radius raises a
`TypeError` that escapes to the caller. -/
theorem C2_counterexample : tshock 0 "K" = (Outcome.exn, [radiusMsg]) :=
  tshock_invalid "K" (Or.inl le_rfl)

/-- C2, amended: for every mass outside (0, 1.44) and every unit string,
`tshock` inherits the domain failure of `radius`: the violation is reported
through the radius diagnostic and no numeric result is produced, but the
call then terminates with an uncaught `TypeError` (the `None` radius is used
in arithmetic), so the failure IS fatal to a caller that does not catch it. -/
theorem C2_theorem (m : ℝ) (unit : String) (h : m ≤ 0 ∨ 1.44 ≤ m) :
    tshock m unit = (Outcome.exn, [radiusMsg]) :=
  tshock_invalid unit h

/-- C2 witness: the amended statement at mass 2 with unit keV. -/
theorem C2_witness : tshock 2 "keV" = (Outcome.exn, [radiusMsg]) :=
  C2_theorem 2 "keV" (Or.inr (by norm_num))

/-! ## C3: fraction validation -/

noncomputable section

/-- The thin-mode accretion fraction at mass 1.3 and the very low accretion
rate 1e-16 solar masses per year, exactly as `facc` produces it. -/
def c3FaccVal : ℝ :=
  3.85e8 * (1.3 / 0.7 : ℝ) ^ (0.1 : ℝ) * (1e-16 * MDOTGS / 1e15) ^ (-0.5 : ℝ) / 4 /
    radiusVal 1.3

end

/-- `facc` evaluates to `c3FaccVal` at the low-rate input. -/
theorem c3_facc_eval : facc 1.3 1e-16 "thin" = (Outcome.val c3FaccVal, []) := by
  rw [facc_thin mass13_valid.1 mass13_valid.2 (by decide)]
  rfl

/-- At the low accretion rate the produced fraction exceeds 1. -/
theorem c3FaccVal_gt_one : 1 < c3FaccVal := by
  have hr := radiusVal_pos mass13_valid.1 mass13_valid.2
  have hbase : (1e-16 * MDOTGS / 1e15 : ℝ) = 317/50000000 := by rw [MDOTGS]; norm_num
  have hA : (1:ℝ) ≤ (1.3/0.7:ℝ) ^ (0.1:ℝ) := by
    have h := Real.rpow_le_rpow_of_exponent_le
      (show (1:ℝ) ≤ 1.3/0.7 by norm_num) (show (0:ℝ) ≤ 0.1 by norm_num)
    rwa [Real.rpow_zero] at h
  have hsq : Real.sqrt (317/50000000 : ℝ) ≤ 13/5000 := by
    rw [show (13/5000:ℝ) = Real.sqrt ((13/5000)^2) from
      (Real.sqrt_sq (by norm_num)).symm]
    exact Real.sqrt_le_sqrt (by norm_num)
  have hsq0 : 0 < Real.sqrt (317/50000000 : ℝ) := Real.sqrt_pos.mpr (by norm_num)
  have hB : (5000/13 : ℝ) ≤ (1e-16 * MDOTGS / 1e15 : ℝ) ^ (-0.5:ℝ) := by
    rw [hbase, show (-0.5:ℝ) = -(0.5) by norm_num,
      Real.rpow_neg (by norm_num : (0:ℝ) ≤ 317/50000000),
      show ((317/50000000:ℝ) ^ (0.5:ℝ)) = Real.sqrt (317/50000000) by
        rw [show (0.5:ℝ) = 1/2 by norm_num, ← Real.sqrt_eq_rpow],
      ← one_div]
    calc (5000/13 : ℝ) = 1 / (13/5000) := by norm_num
      _ ≤ 1 / Real.sqrt (317/50000000) := one_div_le_one_div_of_le hsq0 hsq
  rw [c3FaccVal, div_div, one_lt_div (by positivity)]
  nlinarith [r13_ub, hA, hB,
    mul_le_mul hA hB (by norm_num) (by positivity :
      (0:ℝ) ≤ (1.3/0.7:ℝ) ^ (0.1:ℝ))]

/-- C3 counterexample: `facc` performs no validation of the fraction it
produces; at mass 1.3 and accretion rate 1e-16 the thin-mode accretion
fraction comes out greater than 1, so it is false that every fraction value
produced lies in (0, 1], and `facc` signals no DomainError. -/
theorem C3_counterexample :
    facc 1.3 1e-16 "thin" = (Outcome.val c3FaccVal, []) ∧ 1 < c3FaccVal :=
  ⟨c3_facc_eval, c3FaccVal_gt_one⟩

/-- C3, amended: `nebl` (boundaryLayerDensity) rejects accretion fractions
outside (0, 1] with the DomainError diagnostic and yields no numeric result.
`facc` (accretionFraction), however, takes no fraction input, performs no
such validation, and can produce a value greater than 1, as it does at mass
1.3 and accretion rate 1e-16. -/
theorem C3_theorem :
    (∀ mdot mwd f vacc : ℝ, f ≤ 0 ∨ 1 < f →
      nebl mdot mwd f vacc = (Outcome.retNone, [faccMsg])) ∧
    facc 1.3 1e-16 "thin" = (Outcome.val c3FaccVal, []) ∧ 1 < c3FaccVal :=
  ⟨fun _ _ _ _ h => nebl_reject h, c3_facc_eval, c3FaccVal_gt_one⟩

/-- C3 witness: the rejection branch at the concrete fraction 2. -/
theorem C3_witness : nebl 1 1.3 2 5 = (Outcome.retNone, [faccMsg]) :=
  C3_theorem.1 1 1.3 2 5 (Or.inr (by norm_num))

/-! ## C6: unit conversion and case-insensitivity of tshock -/

/-- `tshock` only ever inspects the lower-cased unit string. -/
theorem tshock_congr {m : ℝ} {u1 u2 : String} (h : lower u1 = lower u2) :
    tshock m u1 = tshock m u2 := by
  simp only [tshock, h]

/-- C6: for every valid mass, the Kelvin result times 8.6173e-8 is exactly
the keV result, and the unit string is matched case-insensitively (any two
unit strings with the same lower-casing give identical results; in
particular "kev" and "keV" agree). -/
theorem C6_theorem (m : ℝ) (h0 : 0 < m) (h1 : m < 1.44) :
    (∃ t, tshock m "K" = (Outcome.val t, []) ∧
      tshock m "keV" = (Outcome.val (t * 8.6173e-8), []) ∧
      tshock m "kev" = tshock m "keV") ∧
    ∀ u1 u2 : String, lower u1 = lower u2 → tshock m u1 = tshock m u2 := by
  refine ⟨⟨3.0 * MU * MH * G * (m * MSOL) / (16.0 * K * radiusVal m),
    tshock_K h0 h1 (by decide), ?_, tshock_congr (by decide)⟩,
    fun u1 u2 h => tshock_congr h⟩
  rw [tshock_keV h0 h1 (by decide)]
  rfl

/-- C6 witness: the statement at mass 1. -/
theorem C6_witness :
    (∃ t, tshock 1 "K" = (Outcome.val t, []) ∧
      tshock 1 "keV" = (Outcome.val (t * 8.6173e-8), []) ∧
      tshock 1 "kev" = tshock 1 "keV") ∧
    ∀ u1 u2 : String, lower u1 = lower u2 → tshock 1 u1 = tshock 1 u2 :=
  C6_theorem 1 (by norm_num) (by norm_num)

/-! ## C7: radiationEnergyDensity -/

/-- C7 counterexample: at luminosity 0 the strict monotonicity in the
covering fraction fails: halving the fraction leaves the result at exactly
0, not strictly larger. -/
theorem C7_counterexample :
    urad 0 1.3 1.0 = (Outcome.val 0, []) ∧ urad 0 1.3 (1/2) = (Outcome.val 0, []) := by
  have h1 := @urad_eq 0 1.3 1.0 mass13_valid.1 mass13_valid.2 (by norm_num) (by norm_num)
  have h2 := @urad_eq 0 1.3 (1/2) mass13_valid.1 mass13_valid.2 (by norm_num)
    (by norm_num)
  rw [zero_div] at h1 h2
  exact ⟨h1, h2⟩

/-- C7, amended: `urad` rejects covering fractions outside (0, 1] with the
DomainError diagnostic and no result; and for every valid mass and every
POSITIVE luminosity, strictly decreasing the covering fraction strictly
increases the energy density. -/
theorem C7_theorem :
    (∀ lrad m f : ℝ, f ≤ 0 ∨ 1 < f → urad lrad m f = (Outcome.retNone, [fradMsg])) ∧
    ∀ lrad m f1 f2 : ℝ, 0 < m → m < 1.44 → 0 < lrad → 0 < f2 → f2 < f1 → f1 ≤ 1 →
      ∃ u1 u2, urad lrad m f1 = (Outcome.val u1, []) ∧
        urad lrad m f2 = (Outcome.val u2, []) ∧ u1 < u2 := by
  refine ⟨fun _ _ _ h => urad_reject h, ?_⟩
  intro lrad m f1 f2 h0 h1 hL hf2 h21 hf1
  have hr := radiusVal_pos h0 h1
  have h2 : (0:ℝ) < radiusVal m ^ (2.0:ℝ) := Real.rpow_pos_of_pos hr _
  refine ⟨_, _, urad_eq h0 h1 (lt_trans hf2 h21) hf1,
    urad_eq h0 h1 hf2 (le_of_lt (lt_of_lt_of_le h21 hf1)), ?_⟩
  apply div_lt_div_of_pos_left hL
  · rw [C]; positivity
  · rw [C]
    have hp : (0:ℝ) < 4.0 * Real.pi * radiusVal m ^ (2.0:ℝ) := by positivity
    nlinarith [mul_lt_mul_of_pos_left h21 hp]

/-- C7 witness: both parts at concrete inputs (fraction 3 rejected;
fractions 1 and 1/2 at luminosity 1, mass 1 compared). -/
theorem C7_witness :
    urad 1 1 3 = (Outcome.retNone, [fradMsg]) ∧
    ∃ u1 u2, urad 1 1 1 = (Outcome.val u1, []) ∧
      urad 1 1 (1/2) = (Outcome.val u2, []) ∧ u1 < u2 :=
  ⟨C7_theorem.1 1 1 3 (Or.inr (by norm_num)),
    C7_theorem.2 1 1 1 (1/2) (by norm_num) (by norm_num) (by norm_num) (by norm_num)
      (by norm_num) (by norm_num)⟩

/-! ## C8: invalid unit and mode strings -/

/-- C8: for every valid mass, an unrecognised unit string makes `tshock`
print the InvalidUnitError diagnostic and return no numeric result, and an
unrecognised mode string makes `facc` print the InvalidModeError diagnostic
and return no numeric result (both matched case-insensitively). -/
theorem C8_theorem (m mdot : ℝ) (unit mode : String) (h0 : 0 < m) (h1 : m < 1.44)
    (hk : lower unit ≠ "k") (hkev : lower unit ≠ "kev")
    (ht : lower mode ≠ "thick") (hn : lower mode ≠ "thin") :
    tshock m unit = (Outcome.retNone, [unitsMsg]) ∧
    facc m mdot mode = (Outcome.retNone, [modeMsg]) :=
  ⟨tshock_badUnit h0 h1 hk hkev, facc_badMode ht hn⟩

/-- C8 witness: unit "Kelvin" and mode "bogus" at mass 1. -/
theorem C8_witness :
    tshock 1 "Kelvin" = (Outcome.retNone, [unitsMsg]) ∧
    facc 1 1 "bogus" = (Outcome.retNone, [modeMsg]) :=
  C8_theorem 1 1 "Kelvin" "bogus" (by norm_num) (by norm_num) (by decide) (by decide)
    (by decide) (by decide)

/-! ## C9: the boundary-layer density formula -/

/-- C9 counterexample: with accretion velocity 0 (and otherwise valid
inputs) `nebl` does not return the formula value; the division by zero
raises `ZeroDivisionError`. -/
theorem C9_counterexample : (nebl 3e-9 1.3 (1/2) 0).1 = Outcome.exn := by
  rw [nebl_zeroVel mass13_valid.1 mass13_valid.2 (by norm_num) (by norm_num)]

/-- C9, amended: for every valid mass, fraction in (0, 1], accretion rate,
and NONZERO velocity, `nebl` returns exactly
(mdot * 6.34e25) / (4 pi * 0.63 * 1.67e-24 * radius^2 * f * (v * 1e5)):
the rate is converted to g/s by the fixed constant 6.34e25 and the velocity
to cm/s by the factor 1e5 before the density formula is applied. -/
theorem C9_theorem (mdot m f v : ℝ) (h0 : 0 < m) (h1 : m < 1.44)
    (hf0 : 0 < f) (hf1 : f ≤ 1) (hv : v ≠ 0) :
    nebl mdot m f v =
      (Outcome.val (mdot * 6.34e25 /
        (4 * Real.pi * 0.63 * 1.67e-24 * radiusVal m ^ (2 : ℕ) * f * (v * 1e5))), []) := by
  rw [nebl_eq h0 h1 hf0 hf1 hv, MDOTGS, MU, MH]

/-- C9 witness: the amended statement at concrete inputs. -/
theorem C9_witness :
    nebl 3e-9 1.3 (1/2) 2000 =
      (Outcome.val (3e-9 * 6.34e25 /
        (4 * Real.pi * 0.63 * 1.67e-24 * radiusVal 1.3 ^ (2 : ℕ) * (1/2) * (2000 * 1e5))),
        []) :=
  C9_theorem 3e-9 1.3 (1/2) 2000 (by norm_num) (by norm_num) (by norm_num) (by norm_num)
    (by norm_num)

/-! ## C10: the thick-mode accretion fraction -/

/-- C10: in thick mode the scale height is (sqrt radius)^2 times the
two-term fit, and division by 4 radius cancels the radius exactly, so the
thick-mode fraction equals (6.96e-4 (m/0.7)^-0.85 mdot18^-0.22 +
7.29e-4 (m/0.7)^0.8 mdot18) / 4 with mdot18 = mdot * 6.34e25 / 1e18,
independent of the white-dwarf radius. -/
theorem C10_theorem (m mdot : ℝ) (h0 : 0 < m) (h1 : m < 1.44) (_hmd : 0 < mdot) :
    facc m mdot "thick" =
      (Outcome.val ((6.96e-4 * (m / 0.7) ^ (-0.85 : ℝ) *
          (mdot * 6.34e25 / 1e18) ^ (-0.22 : ℝ) +
        7.29e-4 * (m / 0.7) ^ (0.8 : ℝ) * (mdot * 6.34e25 / 1e18)) / 4), []) := by
  have hr := radiusVal_pos h0 h1
  have hsq : Real.sqrt (radiusVal m) ^ (2.0 : ℝ) = radiusVal m := by
    rw [show (2.0:ℝ) = ((2:ℕ):ℝ) by norm_num, Real.rpow_natCast,
      Real.sq_sqrt (le_of_lt hr)]
  rw [facc_thick h0 h1 (by decide), hsq, MDOTGS]
  have hcancel : ∀ S : ℝ, radiusVal m * S / 4 / radiusVal m = S / 4 := by
    intro S
    field_simp
    ring
  rw [hcancel]

/-- C10 witness: the statement at mass 1 and accretion rate 1. -/
theorem C10_witness :
    facc 1 1 "thick" =
      (Outcome.val ((6.96e-4 * ((1:ℝ) / 0.7) ^ (-0.85 : ℝ) *
          ((1:ℝ) * 6.34e25 / 1e18) ^ (-0.22 : ℝ) +
        7.29e-4 * ((1:ℝ) / 0.7) ^ (0.8 : ℝ) * ((1:ℝ) * 6.34e25 / 1e18)) / 4), []) :=
  C10_theorem 1 1 (by norm_num) (by norm_num) (by norm_num)

/-! ## C4: the radius contract -/

/-- log10 of one hundred thousand. -/
theorem logb_hundred_thousand : Real.logb 10 (100000 : ℝ) = 5 := by
  rw [show (100000:ℝ) = (10:ℝ) ^ (5:ℕ) by norm_num, Real.logb_pow]
  simp [Real.logb_self_eq_one]

/-- C4: on 0 < m < 1.44 `radius` returns exactly
7.7e8 * x ^ (0.3767 - 0.00605 log10 x) with x = 1.44/m - 1 (and prints
nothing); outside that range it prints the DomainError diagnostic and
returns no value; in particular radius 1.44 and radius 0 both fail, radius
1.43999 is a value in (0, 7.7e8) and radius 0.0001 is a finite value above
7.7e8 (no overflow: every value of the model is a real number). -/
theorem C4_theorem :
    (∀ m : ℝ, 0 < m → m < 1.44 →
      radius m = (Outcome.val (7.7e8 * (1.44 / m - 1.0) ^
        (0.3767 - 0.00605 * Real.logb 10 (1.44 / m - 1.0))), [])) ∧
    (∀ m : ℝ, m ≤ 0 ∨ 1.44 ≤ m → radius m = (Outcome.retNone, [radiusMsg])) ∧
    radius 1.44 = (Outcome.retNone, [radiusMsg]) ∧
    radius 0 = (Outcome.retNone, [radiusMsg]) ∧
    (∃ v, radius 1.43999 = (Outcome.val v, []) ∧ 0 < v ∧ v < 7.7e8) ∧
    (∃ w, radius 0.0001 = (Outcome.val w, []) ∧ 7.7e8 < w) := by
  refine ⟨fun m h0 h1 => radius_eq_val h0 h1, fun m h => radius_eq_none h,
    radius_eq_none (Or.inr le_rfl), radius_eq_none (Or.inl le_rfl),
    ⟨radiusVal 1.43999, radius_eq_val (by norm_num) (by norm_num),
      radiusVal_pos (by norm_num) (by norm_num), ?_⟩,
    ⟨radiusVal 0.0001, radius_eq_val (by norm_num) (by norm_num), ?_⟩⟩
  · -- radiusVal 1.43999 < 7.7e8
    have hbase : (1.44:ℝ) / 1.43999 - 1.0 = 1/143999 := by norm_num
    have hlgb : Real.logb 10 (1/143999 : ℝ) < 0 :=
      Real.logb_neg (by norm_num) (by norm_num) (by norm_num)
    have ht : (0:ℝ) < 0.3767 - 0.00605 * Real.logb 10 (1/143999 : ℝ) := by nlinarith
    have h := Real.rpow_lt_one (show (0:ℝ) ≤ 1/143999 by norm_num)
      (show (1/143999:ℝ) < 1 by norm_num) ht
    rw [radiusVal, hbase]
    nlinarith [h]
  · -- 7.7e8 < radiusVal 0.0001
    have hbase : (1.44:ℝ) / 0.0001 - 1.0 = 14399 := by norm_num
    have hlgb : Real.logb 10 (14399 : ℝ) < 5 := by
      have h := @Real.logb_lt_logb 10 14399 100000 (by norm_num) (by norm_num)
        (by norm_num)
      rwa [logb_hundred_thousand] at h
    have ht : (0:ℝ) < 0.3767 - 0.00605 * Real.logb 10 (14399 : ℝ) := by
      have hpos : 0 < Real.logb 10 (14399 : ℝ) := Real.logb_pos (by norm_num) (by norm_num)
      nlinarith
    have h := Real.one_lt_rpow (show (1:ℝ) < 14399 by norm_num) ht
    rw [radiusVal, hbase]
    nlinarith [h]

/-- C4 witness: the formula branch at mass 0.7. -/
theorem C4_witness :
    radius 0.7 = (Outcome.val (7.7e8 * (1.44 / 0.7 - 1.0) ^
      (0.3767 - 0.00605 * Real.logb 10 (1.44 / 0.7 - 1.0))), []) :=
  C4_theorem.1 0.7 (by norm_num) (by norm_num)

/-! ## C5: monotonicity of the radius -/

/-- C5, amended: on masses at least 1e-30, the radius is strictly positive
and strictly decreasing: for 1e-30 <= m1 < m2 < 1.44, radius m1 > radius
m2 > 0.  (Unrestricted monotonicity is false: for masses so small that the
Webbink base x exceeds about 10^62 the exponent 0.3767 - 0.00605 log10 x
turns negative enough that the radius decreases again; see the
counterexample.) -/
theorem C5_theorem (m1 m2 : ℝ) (hlb : 1e-30 ≤ m1) (h12 : m1 < m2) (hub : m2 < 1.44) :
    ∃ r1 r2, radius m1 = (Outcome.val r1, []) ∧ radius m2 = (Outcome.val r2, []) ∧
      r2 < r1 ∧ 0 < r2 := by
  have h01 : 0 < m1 := lt_of_lt_of_le (by norm_num) hlb
  have h02 : 0 < m2 := lt_trans h01 h12
  have h11 : m1 < 1.44 := lt_trans h12 hub
  refine ⟨radiusVal m1, radiusVal m2, radius_eq_val h01 h11, radius_eq_val h02 hub,
    ?_, radiusVal_pos h02 hub⟩
  have hx1 : (0:ℝ) < 1.44 / m1 - 1.0 := webbink_base_pos h01 h11
  have hx2 : (0:ℝ) < 1.44 / m2 - 1.0 := webbink_base_pos h02 hub
  have hx21 : 1.44 / m2 - 1.0 < 1.44 / m1 - 1.0 := by
    have := div_lt_div_of_pos_left (show (0:ℝ) < 1.44 by norm_num) h01 h12
    linarith
  have hx1ub : 1.44 / m1 - 1.0 ≤ (10:ℝ) ^ (31:ℕ) := by
    have hd : 1.44 / m1 ≤ 1.44e30 := by
      rw [div_le_iff₀ h01]
      nlinarith
    have he : ((10:ℝ) ^ (31:ℕ)) = 1e31 := by norm_num
    linarith
  have hL : (0:ℝ) < Real.log 10 := Real.log_pos (by norm_num)
  have hu : Real.log (1.44 / m2 - 1.0) < Real.log (1.44 / m1 - 1.0) :=
    Real.log_lt_log hx2 hx21
  have hu1 : Real.log (1.44 / m1 - 1.0) ≤ 31 * Real.log 10 := by
    have h := Real.log_le_log hx1 hx1ub
    rw [Real.log_pow] at h
    push_cast at h
    linarith
  have key : Real.log (1.44 / m2 - 1.0) *
      (0.3767 - 0.00605 * (Real.log (1.44 / m2 - 1.0) / Real.log 10)) <
      Real.log (1.44 / m1 - 1.0) *
      (0.3767 - 0.00605 * (Real.log (1.44 / m1 - 1.0) / Real.log 10)) := by
    have hL' : Real.log 10 ≠ 0 := ne_of_gt hL
    rw [← sub_pos]
    have expand : Real.log (1.44 / m1 - 1.0) *
        (0.3767 - 0.00605 * (Real.log (1.44 / m1 - 1.0) / Real.log 10)) -
        Real.log (1.44 / m2 - 1.0) *
        (0.3767 - 0.00605 * (Real.log (1.44 / m2 - 1.0) / Real.log 10)) =
        ((Real.log (1.44 / m1 - 1.0) - Real.log (1.44 / m2 - 1.0)) *
          (0.3767 * Real.log 10 -
            0.00605 * (Real.log (1.44 / m1 - 1.0) + Real.log (1.44 / m2 - 1.0)))) /
          Real.log 10 := by
      field_simp
      ring
    rw [expand]
    apply div_pos _ hL
    apply mul_pos (by linarith)
    linarith
  simp only [radiusVal]
  rw [← Real.log_div_log, ← Real.log_div_log,
    Real.rpow_def_of_pos hx1, Real.rpow_def_of_pos hx2]
  exact mul_lt_mul_of_pos_left (Real.exp_lt_exp.mpr key) (by norm_num)

/-- C5 witness: the amended statement at masses 0.5 and 1. -/
theorem C5_witness :
    ∃ r1 r2, radius 0.5 = (Outcome.val r1, []) ∧ radius 1 = (Outcome.val r2, []) ∧
      r2 < r1 ∧ 0 < r2 :=
  C5_theorem 0.5 1 (by norm_num) (by norm_num) (by norm_num)

/-- log10 of 10 to the 70. -/
theorem logb_ten_pow70 : Real.logb 10 ((10:ℝ) ^ (70:ℕ)) = 70 := by
  rw [Real.logb_pow]
  simp [Real.logb_self_eq_one]

/-- log10 of 10 to the 40. -/
theorem logb_ten_pow40 : Real.logb 10 ((10:ℝ) ^ (40:ℕ)) = 40 := by
  rw [Real.logb_pow]
  simp [Real.logb_self_eq_one]

/-- At mass 1.44/(1+10^70) the Webbink exponent is negative and the radius
evaluates to 7.7e8 * 10^(-3.276). -/
theorem radiusVal_tiny70 :
    radiusVal (1.44 / (1 + (10:ℝ) ^ (70:ℕ))) = 7.7e8 * (10:ℝ) ^ (-3.276 : ℝ) := by
  have hD : (0:ℝ) < 1 + (10:ℝ) ^ (70:ℕ) := by positivity
  have hx : (1.44:ℝ) / (1.44 / (1 + (10:ℝ) ^ (70:ℕ))) - 1.0 = (10:ℝ) ^ (70:ℕ) := by
    field_simp
    norm_num
  rw [radiusVal, hx, logb_ten_pow70,
    show (0.3767:ℝ) - 0.00605 * 70 = -0.0468 by norm_num,
    ← Real.rpow_natCast 10 70, ← Real.rpow_mul (by norm_num : (0:ℝ) ≤ 10)]
  norm_num

/-- At mass 1.44/(1+10^40) the radius evaluates to 7.7e8 * 10^(5.388). -/
theorem radiusVal_tiny40 :
    radiusVal (1.44 / (1 + (10:ℝ) ^ (40:ℕ))) = 7.7e8 * (10:ℝ) ^ (5.388 : ℝ) := by
  have hD : (0:ℝ) < 1 + (10:ℝ) ^ (40:ℕ) := by positivity
  have hx : (1.44:ℝ) / (1.44 / (1 + (10:ℝ) ^ (40:ℕ))) - 1.0 = (10:ℝ) ^ (40:ℕ) := by
    field_simp
    norm_num
  rw [radiusVal, hx, logb_ten_pow40,
    show (0.3767:ℝ) - 0.00605 * 40 = 0.1347 by norm_num,
    ← Real.rpow_natCast 10 40, ← Real.rpow_mul (by norm_num : (0:ℝ) ≤ 10)]
  norm_num

/-- C5 counterexample: the masses 1.44/(1+10^70) < 1.44/(1+10^40) both lie
in (0, 1.44), yet the radius at the smaller mass is STRICTLY SMALLER than at
the larger mass (7.7e8 * 10^(-3.276) versus 7.7e8 * 10^(5.388)), refuting
unrestricted strict decrease of the radius in the mass. -/
theorem C5_counterexample :
    0 < 1.44 / (1 + (10:ℝ) ^ (70:ℕ)) ∧
    1.44 / (1 + (10:ℝ) ^ (70:ℕ)) < 1.44 / (1 + (10:ℝ) ^ (40:ℕ)) ∧
    1.44 / (1 + (10:ℝ) ^ (40:ℕ)) < 1.44 ∧
    radius (1.44 / (1 + (10:ℝ) ^ (70:ℕ))) =
      (Outcome.val (7.7e8 * (10:ℝ) ^ (-3.276 : ℝ)), []) ∧
    radius (1.44 / (1 + (10:ℝ) ^ (40:ℕ))) =
      (Outcome.val (7.7e8 * (10:ℝ) ^ (5.388 : ℝ)), []) ∧
    7.7e8 * (10:ℝ) ^ (-3.276 : ℝ) < 7.7e8 * (10:ℝ) ^ (5.388 : ℝ) := by
  have h70 : (0:ℝ) < 1 + (10:ℝ) ^ (70:ℕ) := by positivity
  have h40 : (0:ℝ) < 1 + (10:ℝ) ^ (40:ℕ) := by positivity
  have hA0 : 0 < 1.44 / (1 + (10:ℝ) ^ (70:ℕ)) := by positivity
  have hAB : 1.44 / (1 + (10:ℝ) ^ (70:ℕ)) < 1.44 / (1 + (10:ℝ) ^ (40:ℕ)) := by
    apply div_lt_div_of_pos_left (by norm_num) h40
    norm_num
  have hB1 : 1.44 / (1 + (10:ℝ) ^ (40:ℕ)) < 1.44 := by
    rw [div_lt_iff₀ h40]
    nlinarith [pow_pos (show (0:ℝ) < 10 by norm_num) 40]
  have hA1 : 1.44 / (1 + (10:ℝ) ^ (70:ℕ)) < 1.44 := lt_trans hAB hB1
  refine ⟨hA0, hAB, hB1, ?_, ?_, ?_⟩
  · rw [radius_eq_val hA0 hA1, radiusVal_tiny70]
  · rw [radius_eq_val (lt_trans hA0 hAB) hB1, radiusVal_tiny40]
  · have := (Real.rpow_lt_rpow_left_iff (show (1:ℝ) < 10 by norm_num)).mpr
      (show (-3.276:ℝ) < 5.388 by norm_num)
    nlinarith [this]

end BoundaryLayers
